import Mathlib

/-!
# Verification of the sqlitedb wrapper (SqliteDb / SqliteStatement / SqliteTransaction)

Shallow embedding of the C++ wrapper around the SQLite C interface.  The
underlying engine (sqlite3) is external: it is modelled as an oracle supplying
the integer result code of each native call.  Every wrapper operation is
embedded as a pure function returning the list of engine calls it issued
(its trace) together with the error it raises, if any.

Sources:
- src/include/SqliteDb.hpp        (executeBatch template)
- src/src/SqliteDb.cpp            (execute, prepare, setCacheSize, checkConnection)
- src/src/SqliteStatement.cpp     (bind overloads, bindNull, step, reset,
                                   clearBindings, checkParameterIndex)
- src/unnamed/part_000            (SqliteTransaction, SqliteValueBinder)
- src/include/SqliteException.hpp (exception taxonomy)
-/

/-- SQLite result codes used by the wrapper (from sqlite3.h). -/
def SQLITE_OK : Int := 0

/-- sqlite3_step result: a row of data is ready. -/
def SQLITE_ROW : Int := 100

/-- sqlite3_step result: execution has finished. -/
def SQLITE_DONE : Int := 101

/-- Category of a raised failure: SqliteDbException ~ connection,
SqliteStatementException ~ statement, SqliteTransactionException ~ transaction,
std::invalid_argument ~ invalidArgument (pre-engine validation in setCacheSize). -/
inductive ErrCategory
  | connection
  | statement
  | transaction
  | invalidArgument
deriving DecidableEq

/-- An exception value: message, engine error code (0 by default in the
SqliteException constructor), and the category given by the thrown type. -/
structure SqliteError where
  message : String
  code : Int
  category : ErrCategory
deriving DecidableEq

/-- A native-engine call issued by the wrapper, as recorded in a trace.
Bind calls record the 1-based parameter index passed to the engine. -/
inductive EngineCall
  | prepare (sql : String)
  | bindInt (index : Int)
  | bindInt64 (index : Int)
  | bindDouble (index : Int)
  | bindText (index : Int)
  | bindBlob (index : Int)
  | bindNull (index : Int)
  | step
  | reset
  | clearBindings
  | exec (sql : String)
deriving DecidableEq

/-- The connection together with the engine-side behaviour of its handle:
whether the handle is non-null (isOpen), the result code sqlite3_exec returns
for a given command text, the error-message out-parameter sqlite3_exec
produces, the result code of sqlite3_prepare_v2, and the text of
sqlite3_errmsg used as a fallback. -/
structure SqliteConnection where
  isOpen : Bool
  execResult : String → Int
  execErrMsg : String → Option String
  prepareResult : String → Int
  errorMessage : String

/-- SqliteDb::execute (SqliteDb.cpp lines 112-130): checkConnection, then
sqlite3_exec; on a non-OK code, raise a SqliteDbException whose text is the
engine-provided message, falling back to getErrorMessage(). -/
def SqliteDb.execute (db : SqliteConnection) (sql : String) :
    List EngineCall × Option SqliteError :=
  if db.isOpen = false then
    ([], some { message := "Database not open", code := 0, category := .connection })
  else if db.execResult sql = SQLITE_OK then
    ([EngineCall.exec sql], none)
  else
    ([EngineCall.exec sql],
     some { message := "SQL execution error: " ++
              (match db.execErrMsg sql with
               | some m => m
               | none => db.errorMessage),
            code := 0, category := .connection })

/-- SqliteDb::prepare (SqliteDb.cpp lines 97-110): checkConnection, then
sqlite3_prepare_v2; a non-OK code raises a SqliteDbException.  The compiled
statement itself is represented separately (StmtEngine below). -/
def SqliteDb.prepare (db : SqliteConnection) (sql : String) :
    List EngineCall × Except SqliteError Unit :=
  if db.isOpen = false then
    ([], Except.error { message := "Database not open", code := 0, category := .connection })
  else if db.prepareResult sql = SQLITE_OK then
    ([EngineCall.prepare sql], Except.ok ())
  else
    ([EngineCall.prepare sql],
     Except.error { message := "Failed to prepare statement: " ++ db.errorMessage,
                    code := 0, category := .connection })

/-- MIN_CACHE_KB constant of SqliteDb::setCacheSize. -/
def MIN_CACHE_KB : Nat := 0

/-- MAX_CACHE_KB constant of SqliteDb::setCacheSize. -/
def MAX_CACHE_KB : Nat := 2000000

/-- The std::invalid_argument raised by setCacheSize's lower-bound branch. -/
def tooSmallError (sizeKb : Nat) : SqliteError :=
  { message := "Cache size too small: " ++ toString sizeKb ++ " KB (minimum: "
      ++ toString MIN_CACHE_KB ++ " KB)",
    code := 0, category := .invalidArgument }

/-- The std::invalid_argument raised by setCacheSize's upper-bound branch. -/
def tooLargeError (sizeKb : Nat) : SqliteError :=
  { message := "Cache size too large: " ++ toString sizeKb ++ " KB (maximum: "
      ++ toString MAX_CACHE_KB ++ " KB)",
    code := 0, category := .invalidArgument }

/-- SqliteDb::setCacheSize (SqliteDb.cpp lines 193-210).  sizeKb is a
std::size_t, an unsigned type, modelled as Nat; both range checks of the
source are kept as written. -/
def SqliteDb.setCacheSize (db : SqliteConnection) (sizeKb : Nat) :
    List EngineCall × Option SqliteError :=
  if sizeKb < MIN_CACHE_KB then
    ([], some (tooSmallError sizeKb))
  else if sizeKb > MAX_CACHE_KB then
    ([], some (tooLargeError sizeKb))
  else
    SqliteDb.execute db ("PRAGMA cache_size = " ++ toString sizeKb)

/-- Engine-side behaviour of one compiled statement: the value of
sqlite3_bind_parameter_count, the result code of each sqlite3_bind_* call
(keyed by the call), and the result code of the k-th sqlite3_step call. -/
structure StmtEngine where
  parameterCount : Int
  bindResult : EngineCall → Int
  stepResult : Nat → Int

/-- SqliteStatement::checkParameterIndex (SqliteStatement.cpp lines 192-202). -/
def checkParameterIndex (paramCount index : Int) : Option SqliteError :=
  if index < 1 then
    some { message := "Parameter index must be >= 1, got " ++ toString index,
           code := 0, category := .statement }
  else if index > paramCount then
    some { message := "Parameter index " ++ toString index ++ " out of range [1, "
             ++ toString paramCount ++ "]",
           code := 0, category := .statement }
  else
    none

/-- SqliteStatement::bind(int, int) (SqliteStatement.cpp lines 13-19). -/
def SqliteStatement.bindInt (se : StmtEngine) (index : Int) (_value : Int) :
    List EngineCall × Option SqliteError :=
  match checkParameterIndex se.parameterCount index with
  | some e => ([], some e)
  | none =>
    if se.bindResult (EngineCall.bindInt index) = SQLITE_OK then
      ([EngineCall.bindInt index], none)
    else
      ([EngineCall.bindInt index],
       some { message := "Failed to bind int at index " ++ toString index,
              code := 0, category := .statement })

/-- SqliteStatement::bind(int, std::int64_t) (SqliteStatement.cpp lines 21-27). -/
def SqliteStatement.bindInt64 (se : StmtEngine) (index : Int) (_value : Int) :
    List EngineCall × Option SqliteError :=
  match checkParameterIndex se.parameterCount index with
  | some e => ([], some e)
  | none =>
    if se.bindResult (EngineCall.bindInt64 index) = SQLITE_OK then
      ([EngineCall.bindInt64 index], none)
    else
      ([EngineCall.bindInt64 index],
       some { message := "Failed to bind int64 at index " ++ toString index,
              code := 0, category := .statement })

/-- SqliteStatement::bind(int, double) (SqliteStatement.cpp lines 29-35). -/
def SqliteStatement.bindDouble (se : StmtEngine) (index : Int) (_value : Float) :
    List EngineCall × Option SqliteError :=
  match checkParameterIndex se.parameterCount index with
  | some e => ([], some e)
  | none =>
    if se.bindResult (EngineCall.bindDouble index) = SQLITE_OK then
      ([EngineCall.bindDouble index], none)
    else
      ([EngineCall.bindDouble index],
       some { message := "Failed to bind double at index " ++ toString index,
              code := 0, category := .statement })

/-- SqliteStatement::bind(int, const std::string&) (SqliteStatement.cpp lines 37-43). -/
def SqliteStatement.bindText (se : StmtEngine) (index : Int) (_value : String) :
    List EngineCall × Option SqliteError :=
  match checkParameterIndex se.parameterCount index with
  | some e => ([], some e)
  | none =>
    if se.bindResult (EngineCall.bindText index) = SQLITE_OK then
      ([EngineCall.bindText index], none)
    else
      ([EngineCall.bindText index],
       some { message := "Failed to bind text at index " ++ toString index,
              code := 0, category := .statement })

/-- SqliteStatement::bind(int, const char*) (SqliteStatement.cpp lines 45-51):
identical to the std::string overload (both call sqlite3_bind_text). -/
def SqliteStatement.bindTextC (se : StmtEngine) (index : Int) (_value : String) :
    List EngineCall × Option SqliteError :=
  match checkParameterIndex se.parameterCount index with
  | some e => ([], some e)
  | none =>
    if se.bindResult (EngineCall.bindText index) = SQLITE_OK then
      ([EngineCall.bindText index], none)
    else
      ([EngineCall.bindText index],
       some { message := "Failed to bind text at index " ++ toString index,
              code := 0, category := .statement })

/-- SqliteStatement::bind(int, const std::vector of byte) (SqliteStatement.cpp
lines 53-60).  Note: the source's failure message for this overload reads
"Failed to bind text at index ...", copied verbatim here. -/
def SqliteStatement.bindBlob (se : StmtEngine) (index : Int) (_blob : List UInt8) :
    List EngineCall × Option SqliteError :=
  match checkParameterIndex se.parameterCount index with
  | some e => ([], some e)
  | none =>
    if se.bindResult (EngineCall.bindBlob index) = SQLITE_OK then
      ([EngineCall.bindBlob index], none)
    else
      ([EngineCall.bindBlob index],
       some { message := "Failed to bind text at index " ++ toString index,
              code := 0, category := .statement })

/-- SqliteStatement::bindNull (SqliteStatement.cpp lines 62-68). -/
def SqliteStatement.bindNull (se : StmtEngine) (index : Int) :
    List EngineCall × Option SqliteError :=
  match checkParameterIndex se.parameterCount index with
  | some e => ([], some e)
  | none =>
    if se.bindResult (EngineCall.bindNull index) = SQLITE_OK then
      ([EngineCall.bindNull index], none)
    else
      ([EngineCall.bindNull index],
       some { message := "Failed to bind null at index " ++ toString index,
              code := 0, category := .statement })

/-- SqliteStatement::step (SqliteStatement.cpp lines 172-182), applied to the
engine result code: SQLITE_ROW yields true, SQLITE_DONE yields false, anything
else raises a SqliteStatementException naming the numeric code. -/
def SqliteStatement.step (rc : Int) : Except SqliteError Bool :=
  if rc = SQLITE_ROW then
    Except.ok true
  else if rc = SQLITE_DONE then
    Except.ok false
  else
    Except.error { message := "Step failed with error code: " ++ toString rc,
                   code := 0, category := .statement }

/-- SqliteValue (SqliteTypes.hpp lines 51-57): std::variant over monostate,
int64, double, string, byte vector. -/
inductive SqliteValue
  | vNull
  | vInt64 (v : Int)
  | vDouble (v : Float)
  | vText (v : String)
  | vBlob (v : List UInt8)

/-- SqliteValueBinder::bind (src/unnamed/part_000 lines 67-82): std::visit
dispatch of a SqliteValue onto the typed bind overload for its active
alternative. -/
def SqliteValueBinder.bind (se : StmtEngine) (index : Int) (value : SqliteValue) :
    List EngineCall × Option SqliteError :=
  match value with
  | .vNull => SqliteStatement.bindNull se index
  | .vInt64 v => SqliteStatement.bindInt64 se index v
  | .vDouble v => SqliteStatement.bindDouble se index v
  | .vText v => SqliteStatement.bindText se index v
  | .vBlob v => SqliteStatement.bindBlob se index v

/-- Inner loop of SqliteDb::executeBatch (SqliteDb.hpp lines 176-179): bind
the row's values at consecutive indices, starting from idx (the source starts
at 1); a bind failure aborts immediately. -/
def SqliteDb.bindRow (se : StmtEngine) (idx : Nat) :
    List SqliteValue → List EngineCall × Option SqliteError
  | [] => ([], none)
  | v :: rest =>
    match SqliteValueBinder.bind se (Int.ofNat idx) v with
    | (tr, some e) => (tr, some e)
    | (tr, none) =>
      let r := SqliteDb.bindRow se (idx + 1) rest
      (tr ++ r.1, r.2)

/-- Row loop of SqliteDb::executeBatch (SqliteDb.hpp lines 175-183): for each
row, bind values from index 1, then step, then reset and clearBindings.
stepsDone counts the step calls already issued, indexing into the engine's
stepResult oracle.  A thrown bind or step error aborts the loop. -/
def SqliteDb.executeBatchRows (se : StmtEngine) (stepsDone : Nat) :
    List (List SqliteValue) → List EngineCall × Option SqliteError
  | [] => ([], none)
  | row :: rest =>
    match SqliteDb.bindRow se 1 row with
    | (tr, some e) => (tr, some e)
    | (tr, none) =>
      match SqliteStatement.step (se.stepResult stepsDone) with
      | Except.error e => (tr ++ [EngineCall.step], some e)
      | Except.ok _ =>
        let r := SqliteDb.executeBatchRows se (stepsDone + 1) rest
        (tr ++ [EngineCall.step, EngineCall.reset, EngineCall.clearBindings] ++ r.1, r.2)

/-- SqliteDb::executeBatch (SqliteDb.hpp lines 163-184): check the connection,
prepare the template once, then run the row loop.  se describes the engine
behaviour of the statement compiled from sql. -/
def SqliteDb.executeBatch (db : SqliteConnection) (se : StmtEngine) (sql : String)
    (rows : List (List SqliteValue)) : List EngineCall × Option SqliteError :=
  if db.isOpen = false then
    ([], some { message := "Database not open", code := 0, category := .connection })
  else
    match SqliteDb.prepare db sql with
    | (tr, Except.error e) => (tr, some e)
    | (tr, Except.ok _) =>
      let r := SqliteDb.executeBatchRows se 0 rows
      (tr ++ r.1, r.2)

/-- SqliteTransaction::Mode (SqliteTransaction.hpp). -/
inductive Mode
  | Deferred
  | Immediate
  | Exclusive
deriving DecidableEq

/-- The BEGIN command text chosen by the constructor's switch
(src/unnamed/part_000 lines 13-19); the default branch yields IMMEDIATE. -/
def beginSql (mode : Mode) : String :=
  match mode with
  | .Deferred => "BEGIN DEFERRED;"
  | .Exclusive => "BEGIN EXCLUSIVE;"
  | .Immediate => "BEGIN IMMEDIATE;"

/-- State of a SqliteTransaction: its mIntransaction flag.  The referenced
SqliteDb is passed explicitly to each operation. -/
structure SqliteTransaction where
  mIntransaction : Bool
deriving DecidableEq

/-- SqliteTransaction constructor (src/unnamed/part_000 lines 6-23): throw a
SqliteTransactionException "No database" if the connection is not open, else
run the BEGIN through SqliteDb::execute; a failure there propagates unchanged
(the constructor does not catch it) and no object is produced. -/
def SqliteTransaction.construct (db : SqliteConnection) (mode : Mode) :
    List EngineCall × Except SqliteError SqliteTransaction :=
  if db.isOpen = false then
    ([], Except.error { message := "No database", code := 0, category := .transaction })
  else
    match SqliteDb.execute db (beginSql mode) with
    | (tr, some e) => (tr, Except.error e)
    | (tr, none) => (tr, Except.ok { mIntransaction := true })

/-- SqliteTransaction::exec (src/unnamed/part_000 lines 48-57): if the flag is
set, run the command; on success clear the flag; a SqliteException from
execute is rethrown as a SqliteTransactionException carrying its message
(skipping the flag update, so the flag stays set).  If the flag is clear,
do nothing.  Returns (new state, trace, error). -/
def SqliteTransaction.exec (t : SqliteTransaction) (db : SqliteConnection) (sql : String) :
    SqliteTransaction × List EngineCall × Option SqliteError :=
  if t.mIntransaction then
    match SqliteDb.execute db sql with
    | (tr, none) => ({ mIntransaction := false }, tr, none)
    | (tr, some e) => (t, tr, some { message := e.message, code := 0, category := .transaction })
  else
    (t, [], none)

/-- SqliteTransaction::commit (src/unnamed/part_000 lines 36-38). -/
def SqliteTransaction.commit (t : SqliteTransaction) (db : SqliteConnection) :
    SqliteTransaction × List EngineCall × Option SqliteError :=
  SqliteTransaction.exec t db "COMMIT"

/-- SqliteTransaction::rollback (src/unnamed/part_000 lines 40-42). -/
def SqliteTransaction.rollback (t : SqliteTransaction) (db : SqliteConnection) :
    SqliteTransaction × List EngineCall × Option SqliteError :=
  SqliteTransaction.exec t db "ROLLBACK"

/-- SqliteTransaction destructor (src/unnamed/part_000 lines 25-34): if the
flag is set, run ROLLBACK and clear the flag, catching and discarding any
error (the catch-all leaves the flag set when execute throws); the returned
error component is what escapes the destructor. -/
def SqliteTransaction.destruct (t : SqliteTransaction) (db : SqliteConnection) :
    SqliteTransaction × List EngineCall × Option SqliteError :=
  if t.mIntransaction then
    match SqliteDb.execute db "ROLLBACK" with
    | (tr, none) => ({ mIntransaction := false }, tr, none)
    | (tr, some _) => (t, tr, none)
  else
    (t, [], none)

/-- A commit() or rollback() call made by the caller. -/
inductive TxnOp
  | commitOp
  | rollbackOp
deriving DecidableEq

/-- The command each TxnOp issues through SqliteTransaction::exec. -/
def txnOpSql : TxnOp → String
  | .commitOp => "COMMIT"
  | .rollbackOp => "ROLLBACK"

/-- Run a sequence of commit/rollback calls against one transaction object,
accumulating every engine call that reaches the connection (the caller is
assumed to catch any raised error and continue). -/
def runTxnOps (db : SqliteConnection) (t : SqliteTransaction) :
    List TxnOp → SqliteTransaction × List EngineCall
  | [] => (t, [])
  | op :: rest =>
    let r := SqliteTransaction.exec t db (txnOpSql op)
    let r2 := runTxnOps db r.1 rest
    (r2.1, r.2.1 ++ r2.2)

/-- The engine call a typed bind overload issues for a SqliteValue, as
dispatched by SqliteValueBinder::bind (specification-side description). -/
def bindCallOf (index : Int) : SqliteValue → EngineCall
  | .vNull => EngineCall.bindNull index
  | .vInt64 _ => EngineCall.bindInt64 index
  | .vDouble _ => EngineCall.bindDouble index
  | .vText _ => EngineCall.bindText index
  | .vBlob _ => EngineCall.bindBlob index

/-- Specification-side bind trace of one row: one bind call per value, at
consecutive 1-based indices starting from idx. -/
def rowBindCallsFrom (idx : Nat) : List SqliteValue → List EngineCall
  | [] => []
  | v :: rest => bindCallOf (Int.ofNat idx) v :: rowBindCallsFrom (idx + 1) rest

/-- Specification-side trace of one batch row: binds at slots 1..len, one
step, one reset, one clearBindings. -/
def expectedRowTrace (row : List SqliteValue) : List EngineCall :=
  rowBindCallsFrom 1 row ++ [EngineCall.step, EngineCall.reset, EngineCall.clearBindings]

/-- Specification-side trace of a whole successful batch: one prepare, then
the row traces in order. -/
def expectedBatchTrace (sql : String) (rows : List (List SqliteValue)) : List EngineCall :=
  EngineCall.prepare sql :: rows.foldr (fun row acc => expectedRowTrace row ++ acc) []

/-- Recognizes prepare calls in a trace. -/
def isPrepareCall : EngineCall → Bool
  | .prepare _ => true
  | _ => false

/-- A closed connection (null handle); engine oracles are irrelevant. -/
def dbClosed : SqliteConnection :=
  { isOpen := false, execResult := fun _ => 0, execErrMsg := fun _ => none,
    prepareResult := fun _ => 0, errorMessage := "" }

/-- An open connection on which every engine call succeeds. -/
def dbOpenOk : SqliteConnection :=
  { isOpen := true, execResult := fun _ => 0, execErrMsg := fun _ => none,
    prepareResult := fun _ => 0, errorMessage := "" }

/-- An open connection on which every sqlite3_exec call fails with message
"disk I/O error". -/
def dbExecFails : SqliteConnection :=
  { isOpen := true, execResult := fun _ => 1, execErrMsg := fun _ => some "disk I/O error",
    prepareResult := fun _ => 0, errorMessage := "" }

/-- A statement engine with 2 placeholders on which every bind succeeds and
every step returns SQLITE_DONE. -/
def seP2 : StmtEngine :=
  { parameterCount := 2, bindResult := fun _ => 0, stepResult := fun _ => 101 }

/-- A statement engine with 1 placeholder on which every bind call fails at
the engine level. -/
def seBindFails : StmtEngine :=
  { parameterCount := 1, bindResult := fun _ => 1, stepResult := fun _ => 101 }

theorem execute_error_category (db : SqliteConnection) (sql : String) (e : SqliteError)
    (h : (SqliteDb.execute db sql).2 = some e) : e.category = ErrCategory.connection := by
  unfold SqliteDb.execute at h
  by_cases hopen : db.isOpen = false
  · simp [hopen] at h
    rw [← h]
  · by_cases hrc : db.execResult sql = SQLITE_OK
    · simp [hopen, hrc] at h
    · simp [hopen, hrc] at h
      rw [← h]


/-- C9: every requested size above 2,000,000 KB makes setCacheSize fail with
an invalid-argument error and issue no command to the connection; every size
in [0, 2,000,000] makes it issue exactly one cache-size configuration
command (on an open connection, the sole PRAGMA cache_size exec call). -/
theorem C9_setCacheSize_validation :
    (∀ (db : SqliteConnection) (sizeKb : Nat), MAX_CACHE_KB < sizeKb →
      SqliteDb.setCacheSize db sizeKb = ([], some (tooLargeError sizeKb)) ∧
      (tooLargeError sizeKb).category = ErrCategory.invalidArgument) ∧
    (∀ (db : SqliteConnection) (sizeKb : Nat), sizeKb ≤ MAX_CACHE_KB →
      db.isOpen = true →
      (SqliteDb.setCacheSize db sizeKb).1 =
        [EngineCall.exec ("PRAGMA cache_size = " ++ toString sizeKb)]) := by
  constructor
  · intro db sizeKb h
    refine ⟨?_, rfl⟩
    unfold SqliteDb.setCacheSize
    rw [if_neg (by simp [MIN_CACHE_KB])]
    rw [if_pos (by exact h)]
  · intro db sizeKb h hopen
    unfold SqliteDb.setCacheSize
    rw [if_neg (by simp [MIN_CACHE_KB])]
    rw [if_neg (by omega)]
    unfold SqliteDb.execute
    rw [if_neg (by simp [hopen])]
    by_cases hrc : db.execResult ("PRAGMA cache_size = " ++ toString sizeKb) = SQLITE_OK
    · rw [if_pos hrc]
    · rw [if_neg hrc]

theorem C9_setCacheSize_validation_witness :
    SqliteDb.setCacheSize dbOpenOk 2000001 = ([], some (tooLargeError 2000001)) ∧
    (SqliteDb.setCacheSize dbOpenOk 100).1 = [EngineCall.exec "PRAGMA cache_size = 100"] :=
  ⟨(C9_setCacheSize_validation.1 dbOpenOk 2000001 (by decide)).1,
   C9_setCacheSize_validation.2 dbOpenOk 100 (by decide) rfl⟩

/-- C10: the lower-bound rejection of setCacheSize is unreachable: sizeKb is
unsigned so sizeKb < MIN_CACHE_KB never holds, the function is equal to one
with no lower-bound branch, and an invalid-argument failure arises exactly
when sizeKb > 2,000,000 -- no input is ever rejected as below the minimum. -/
theorem C10_setCacheSize_lower_bound_unreachable :
    (∀ sizeKb : Nat, ¬ (sizeKb < MIN_CACHE_KB)) ∧
    (∀ (db : SqliteConnection) (sizeKb : Nat),
      SqliteDb.setCacheSize db sizeKb =
        if MAX_CACHE_KB < sizeKb then ([], some (tooLargeError sizeKb))
        else SqliteDb.execute db ("PRAGMA cache_size = " ++ toString sizeKb)) ∧
    (∀ (db : SqliteConnection) (sizeKb : Nat) (e : SqliteError),
      (SqliteDb.setCacheSize db sizeKb).2 = some e →
      (e.category = ErrCategory.invalidArgument ↔ MAX_CACHE_KB < sizeKb)) := by
  refine ⟨fun sizeKb => by simp [MIN_CACHE_KB], ?_, ?_⟩
  · intro db sizeKb
    unfold SqliteDb.setCacheSize
    rw [if_neg (by simp [MIN_CACHE_KB])]
  · intro db sizeKb e h
    unfold SqliteDb.setCacheSize at h
    rw [if_neg (by simp [MIN_CACHE_KB])] at h
    by_cases hgt : MAX_CACHE_KB < sizeKb
    · rw [if_pos hgt] at h
      simp at h
      rw [← h]
      simpa [tooLargeError] using hgt
    · rw [if_neg hgt] at h
      have hc := execute_error_category db _ e h
      simp [hc, hgt]

theorem C10_setCacheSize_lower_bound_unreachable_witness :
    (tooLargeError 2000001).category = ErrCategory.invalidArgument ↔ MAX_CACHE_KB < 2000001 :=
  C10_setCacheSize_lower_bound_unreachable.2.2 dbOpenOk 2000001 (tooLargeError 2000001) rfl

theorem exec_of_inactive (t : SqliteTransaction) (db : SqliteConnection) (sql : String)
    (h : t.mIntransaction = false) : SqliteTransaction.exec t db sql = (t, [], none) := by
  unfold SqliteTransaction.exec
  rw [h]
  simp

theorem exec_noerror_inactive (t t1 : SqliteTransaction) (db : SqliteConnection)
    (sql : String) (tr : List EngineCall)
    (h : SqliteTransaction.exec t db sql = (t1, tr, none)) : t1.mIntransaction = false := by
  unfold SqliteTransaction.exec at h
  by_cases ht : t.mIntransaction
  · rw [if_pos ht] at h
    rcases hdb : SqliteDb.execute db sql with ⟨tr0, err0⟩
    cases err0 with
    | none =>
      rw [hdb] at h
      simp at h
      rw [← h.1]
    | some e =>
      rw [hdb] at h
      simp at h
  · rw [if_neg ht] at h
    simp at h
    rw [← h.1]
    simpa using ht

/-- C3: once a Transaction's active flag is false, commit() and rollback()
are silent no-ops (no error, no command issued, state unchanged); a second
commit() or rollback() after a call that raised no error is a no-op (so
commit twice is equivalent to commit once, likewise rollback twice and the
two mixed orders); and from an inactive transaction, no sequence of
commit/rollback calls ever sends a command to the connection. -/
theorem C3_transaction_finish_idempotent :
    (∀ (db : SqliteConnection) (t : SqliteTransaction), t.mIntransaction = false →
      SqliteTransaction.commit t db = (t, [], none) ∧
      SqliteTransaction.rollback t db = (t, [], none)) ∧
    (∀ (db db2 : SqliteConnection) (t t1 : SqliteTransaction) (tr : List EngineCall),
      (SqliteTransaction.commit t db = (t1, tr, none) ∨
       SqliteTransaction.rollback t db = (t1, tr, none)) →
      SqliteTransaction.commit t1 db2 = (t1, [], none) ∧
      SqliteTransaction.rollback t1 db2 = (t1, [], none)) ∧
    (∀ (db : SqliteConnection) (t : SqliteTransaction) (ops : List TxnOp),
      t.mIntransaction = false → runTxnOps db t ops = (t, [])) := by
  have key : ∀ (db : SqliteConnection) (t : SqliteTransaction) (ops : List TxnOp),
      t.mIntransaction = false → runTxnOps db t ops = (t, []) := by
    intro db t ops h
    induction ops with
    | nil => rfl
    | cons op rest ih =>
      unfold runTxnOps
      rw [exec_of_inactive t db (txnOpSql op) h]
      simp [ih]
  refine ⟨?_, ?_, key⟩
  · intro db t h
    exact ⟨exec_of_inactive t db "COMMIT" h, exec_of_inactive t db "ROLLBACK" h⟩
  · intro db db2 t t1 tr h
    have h1 : t1.mIntransaction = false := by
      cases h with
      | inl hc => exact exec_noerror_inactive t t1 db "COMMIT" tr hc
      | inr hr => exact exec_noerror_inactive t t1 db "ROLLBACK" tr hr
    exact ⟨exec_of_inactive t1 db2 "COMMIT" h1, exec_of_inactive t1 db2 "ROLLBACK" h1⟩

theorem C3_transaction_finish_idempotent_witness :
    SqliteTransaction.commit { mIntransaction := false } dbOpenOk =
      ({ mIntransaction := false }, [], none) ∧
    runTxnOps dbOpenOk { mIntransaction := false }
      [TxnOp.commitOp, TxnOp.rollbackOp, TxnOp.commitOp] = ({ mIntransaction := false }, []) :=
  ⟨(C3_transaction_finish_idempotent.1 dbOpenOk { mIntransaction := false } rfl).1,
   C3_transaction_finish_idempotent.2.2 dbOpenOk { mIntransaction := false }
     [TxnOp.commitOp, TxnOp.rollbackOp, TxnOp.commitOp] rfl⟩

/-- C4 counterexample: on an open connection whose BEGIN command fails, the
Transaction constructor fails, but the surfaced error is the
connection-category SqliteDbException propagated from SqliteDb::execute, not
a transaction-category error as the claim states. -/
theorem C4_counterexample_begin_failure_category :
    (SqliteTransaction.construct dbExecFails Mode.Immediate).2 =
      Except.error { message := "SQL execution error: disk I/O error", code := 0,
                     category := ErrCategory.connection } ∧
    ErrCategory.connection ≠ ErrCategory.transaction :=
  ⟨rfl, by decide⟩

/-- C4 amended: when the connection is not open, construction fails with a
transaction-category "No database" error before any command is issued; when
the BEGIN command itself fails, construction fails and no Transaction object
is produced, but the error is the connection-category error of
SqliteDb::execute, propagated unchanged. -/
theorem C4_construct_failure_modes :
    (∀ (db : SqliteConnection) (mode : Mode), db.isOpen = false →
      SqliteTransaction.construct db mode =
        ([], Except.error { message := "No database", code := 0,
                            category := ErrCategory.transaction })) ∧
    (∀ (db : SqliteConnection) (mode : Mode), db.isOpen = true →
      db.execResult (beginSql mode) ≠ SQLITE_OK →
      SqliteTransaction.construct db mode =
        ([EngineCall.exec (beginSql mode)],
         Except.error { message := "SQL execution error: " ++
                          (match db.execErrMsg (beginSql mode) with
                           | some m => m
                           | none => db.errorMessage),
                        code := 0, category := ErrCategory.connection })) := by
  constructor
  · intro db mode h
    unfold SqliteTransaction.construct
    rw [if_pos h]
  · intro db mode hopen hrc
    unfold SqliteTransaction.construct
    rw [if_neg (by simp [hopen])]
    unfold SqliteDb.execute
    rw [if_neg (by simp [hopen]), if_neg hrc]

theorem C4_construct_failure_modes_witness :
    SqliteTransaction.construct dbClosed Mode.Deferred =
      ([], Except.error { message := "No database", code := 0,
                          category := ErrCategory.transaction }) ∧
    SqliteTransaction.construct dbExecFails Mode.Immediate =
      ([EngineCall.exec "BEGIN IMMEDIATE;"],
       Except.error { message := "SQL execution error: disk I/O error", code := 0,
                      category := ErrCategory.connection }) :=
  ⟨C4_construct_failure_modes.1 dbClosed Mode.Deferred rfl,
   C4_construct_failure_modes.2 dbExecFails Mode.Immediate rfl (by decide)⟩

/-- C5: on an active Transaction, a failing COMMIT command surfaces as a
transaction-category error carrying the underlying message, and the state is
unchanged (still active, so the caller may retry or roll back); a successful
COMMIT transitions the transaction to the finished state. -/
theorem C5_commit_failure_keeps_active :
    ∀ (db : SqliteConnection) (t : SqliteTransaction),
      t.mIntransaction = true → db.isOpen = true →
      (db.execResult "COMMIT" ≠ SQLITE_OK →
        SqliteTransaction.commit t db =
          (t, [EngineCall.exec "COMMIT"],
           some { message := "SQL execution error: " ++
                    (match db.execErrMsg "COMMIT" with
                     | some m => m
                     | none => db.errorMessage),
                  code := 0, category := ErrCategory.transaction })) ∧
      (db.execResult "COMMIT" = SQLITE_OK →
        SqliteTransaction.commit t db =
          ({ mIntransaction := false }, [EngineCall.exec "COMMIT"], none)) := by
  intro db t ht hopen
  constructor
  · intro hrc
    unfold SqliteTransaction.commit SqliteTransaction.exec
    rw [if_pos ht]
    unfold SqliteDb.execute
    rw [if_neg (by simp [hopen]), if_neg hrc]
  · intro hrc
    unfold SqliteTransaction.commit SqliteTransaction.exec
    rw [if_pos ht]
    unfold SqliteDb.execute
    rw [if_neg (by simp [hopen]), if_pos hrc]

theorem C5_commit_failure_keeps_active_witness :
    SqliteTransaction.commit { mIntransaction := true } dbExecFails =
      ({ mIntransaction := true }, [EngineCall.exec "COMMIT"],
       some { message := "SQL execution error: disk I/O error", code := 0,
              category := ErrCategory.transaction }) ∧
    SqliteTransaction.commit { mIntransaction := true } dbOpenOk =
      ({ mIntransaction := false }, [EngineCall.exec "COMMIT"], none) :=
  ⟨(C5_commit_failure_keeps_active dbExecFails { mIntransaction := true } rfl rfl).1
     (by decide),
   (C5_commit_failure_keeps_active dbOpenOk { mIntransaction := true } rfl rfl).2 rfl⟩

/-- C6: the destructor of a still-active Transaction attempts a ROLLBACK and
never lets an error escape, whatever the engine outcome; on an inactive
Transaction it does nothing.  In contrast, the same underlying failure is
surfaced by the explicit rollback() call, making the destructor the one
modelled operation that suppresses a failure. -/
theorem C6_destructor_swallows_rollback_failure :
    (∀ (db : SqliteConnection) (t : SqliteTransaction),
      (SqliteTransaction.destruct t db).2.2 = none) ∧
    (∀ (db : SqliteConnection) (t : SqliteTransaction),
      t.mIntransaction = true → db.isOpen = true →
      (SqliteTransaction.destruct t db).2.1 = [EngineCall.exec "ROLLBACK"]) ∧
    (∀ (db : SqliteConnection) (t : SqliteTransaction),
      t.mIntransaction = false → SqliteTransaction.destruct t db = (t, [], none)) ∧
    (∀ (db : SqliteConnection) (t : SqliteTransaction),
      t.mIntransaction = true → db.isOpen = true →
      db.execResult "ROLLBACK" ≠ SQLITE_OK →
      ((SqliteTransaction.rollback t db).2.2.map SqliteError.category =
          some ErrCategory.transaction) ∧
      (SqliteTransaction.destruct t db).2.2 = none) := by
  have hnone : ∀ (db : SqliteConnection) (t : SqliteTransaction),
      (SqliteTransaction.destruct t db).2.2 = none := by
    intro db t
    unfold SqliteTransaction.destruct
    by_cases ht : t.mIntransaction
    · rw [if_pos ht]
      rcases hdb : SqliteDb.execute db "ROLLBACK" with ⟨tr0, err0⟩
      cases err0 <;> simp
    · rw [if_neg ht]
  refine ⟨hnone, ?_, ?_, ?_⟩
  · intro db t ht hopen
    unfold SqliteTransaction.destruct
    rw [if_pos ht]
    unfold SqliteDb.execute
    rw [if_neg (by simp [hopen])]
    by_cases hrc : db.execResult "ROLLBACK" = SQLITE_OK
    · rw [if_pos hrc]
    · rw [if_neg hrc]
  · intro db t ht
    unfold SqliteTransaction.destruct
    rw [if_neg (by simp [ht])]
  · intro db t ht hopen hrc
    refine ⟨?_, hnone db t⟩
    unfold SqliteTransaction.rollback SqliteTransaction.exec
    rw [if_pos ht]
    unfold SqliteDb.execute
    rw [if_neg (by simp [hopen]), if_neg hrc]
    rfl

theorem C6_destructor_swallows_rollback_failure_witness :
    (SqliteTransaction.destruct { mIntransaction := true } dbExecFails).2.2 = none ∧
    (SqliteTransaction.destruct { mIntransaction := true } dbExecFails).2.1 =
      [EngineCall.exec "ROLLBACK"] ∧
    (SqliteTransaction.rollback { mIntransaction := true } dbExecFails).2.2.map
        SqliteError.category = some ErrCategory.transaction :=
  ⟨C6_destructor_swallows_rollback_failure.1 dbExecFails { mIntransaction := true },
   C6_destructor_swallows_rollback_failure.2.1 dbExecFails { mIntransaction := true } rfl rfl,
   (C6_destructor_swallows_rollback_failure.2.2.2 dbExecFails { mIntransaction := true }
      rfl rfl (by decide)).1⟩

theorem checkParameterIndex_out_of_range (p i : Int) (h : i < 1 ∨ p < i) :
    (checkParameterIndex p i).map SqliteError.category = some ErrCategory.statement := by
  unfold checkParameterIndex
  by_cases h1 : i < 1
  · rw [if_pos h1]
    rfl
  · rw [if_neg h1, if_pos (by omega)]
    rfl

theorem checkParameterIndex_in_range (p i : Int) (h1 : 1 ≤ i) (h2 : i ≤ p) :
    checkParameterIndex p i = none := by
  unfold checkParameterIndex
  rw [if_neg (by omega), if_neg (by omega)]

/-- C7: every bind overload of the statement and bindNull, called with an
index below 1 or above the parameter count, fails with exactly the
statement-category error of checkParameterIndex and issues no engine bind
call (empty trace). -/
theorem C7_bind_out_of_range_rejected :
    ∀ (se : StmtEngine) (index : Int), index < 1 ∨ se.parameterCount < index →
      ((checkParameterIndex se.parameterCount index).map SqliteError.category =
          some ErrCategory.statement) ∧
      (∀ v : Int, SqliteStatement.bindInt se index v =
          ([], checkParameterIndex se.parameterCount index)) ∧
      (∀ v : Int, SqliteStatement.bindInt64 se index v =
          ([], checkParameterIndex se.parameterCount index)) ∧
      (∀ v : Float, SqliteStatement.bindDouble se index v =
          ([], checkParameterIndex se.parameterCount index)) ∧
      (∀ v : String, SqliteStatement.bindText se index v =
          ([], checkParameterIndex se.parameterCount index)) ∧
      (∀ v : String, SqliteStatement.bindTextC se index v =
          ([], checkParameterIndex se.parameterCount index)) ∧
      (∀ b : List UInt8, SqliteStatement.bindBlob se index b =
          ([], checkParameterIndex se.parameterCount index)) ∧
      SqliteStatement.bindNull se index =
          ([], checkParameterIndex se.parameterCount index) := by
  intro se index h
  have hcat := checkParameterIndex_out_of_range se.parameterCount index h
  obtain ⟨e, hck⟩ : ∃ e, checkParameterIndex se.parameterCount index = some e := by
    rcases hh : checkParameterIndex se.parameterCount index with _ | e
    · rw [hh] at hcat
      simp at hcat
    · exact ⟨e, rfl⟩
  refine ⟨hcat, ?_, ?_, ?_, ?_, ?_, ?_, ?_⟩ <;>
    first
      | exact fun v => by simp [SqliteStatement.bindInt, SqliteStatement.bindInt64,
          SqliteStatement.bindDouble, SqliteStatement.bindText, SqliteStatement.bindTextC,
          SqliteStatement.bindBlob, hck]
      | exact by simp [SqliteStatement.bindNull, hck]

theorem C7_bind_out_of_range_rejected_witness :
    ((checkParameterIndex seP2.parameterCount 0).map SqliteError.category =
        some ErrCategory.statement) ∧
    SqliteStatement.bindInt seP2 0 5 = ([], checkParameterIndex seP2.parameterCount 0) ∧
    SqliteStatement.bindNull seP2 3 = ([], checkParameterIndex seP2.parameterCount 3) :=
  ⟨(C7_bind_out_of_range_rejected seP2 0 (by decide)).1,
   (C7_bind_out_of_range_rejected seP2 0 (by decide)).2.1 5,
   (C7_bind_out_of_range_rejected seP2 3 (by decide)).2.2.2.2.2.2.2⟩

/-- C8: evaluation of the blob overload at a failing engine bind: on an
in-range index where sqlite3_bind_blob reports non-success, the raised
statement error's message is "Failed to bind text at index 1" -- it names
the text kind, not the blob kind being bound. -/
theorem C8_blob_bind_error_message_names_text :
    SqliteStatement.bindBlob seBindFails 1 [] =
      ([EngineCall.bindBlob 1],
       some { message := "Failed to bind text at index 1", code := 0,
              category := ErrCategory.statement }) ∧
    "Failed to bind text at index 1" ≠ "Failed to bind blob at index 1" :=
  ⟨rfl, by decide⟩

theorem bindCallOf_ne_step (index : Int) (v : SqliteValue) :
    bindCallOf index v ≠ EngineCall.step := by
  cases v <;> simp [bindCallOf]

theorem isPrepareCall_bindCallOf (index : Int) (v : SqliteValue) :
    isPrepareCall (bindCallOf index v) = false := by
  cases v <;> simp [bindCallOf, isPrepareCall]

theorem count_step_rowBindCallsFrom (row : List SqliteValue) :
    ∀ idx : Nat, (rowBindCallsFrom idx row).count EngineCall.step = 0 := by
  induction row with
  | nil => intro idx; rfl
  | cons v rest ih =>
    intro idx
    simp [rowBindCallsFrom, List.count_cons, ih, bindCallOf_ne_step]

theorem filter_prepare_rowBindCallsFrom (row : List SqliteValue) :
    ∀ idx : Nat, (rowBindCallsFrom idx row).filter isPrepareCall = [] := by
  induction row with
  | nil => intro idx; rfl
  | cons v rest ih =>
    intro idx
    simp [rowBindCallsFrom, List.filter_cons, ih, isPrepareCall_bindCallOf]

theorem count_step_expectedRowTrace (row : List SqliteValue) :
    (expectedRowTrace row).count EngineCall.step = 1 := by
  simp [expectedRowTrace, List.count_append, count_step_rowBindCallsFrom, List.count_cons]

theorem filter_prepare_expectedRowTrace (row : List SqliteValue) :
    (expectedRowTrace row).filter isPrepareCall = [] := by
  simp [expectedRowTrace, List.filter_append, filter_prepare_rowBindCallsFrom,
    List.filter_cons, isPrepareCall]

theorem count_step_rowTraces (rows : List (List SqliteValue)) :
    (rows.foldr (fun row acc => expectedRowTrace row ++ acc) []).count EngineCall.step =
      rows.length := by
  induction rows with
  | nil => rfl
  | cons row rest ih =>
    simp [List.count_append, count_step_expectedRowTrace, ih]
    omega

theorem filter_prepare_rowTraces (rows : List (List SqliteValue)) :
    (rows.foldr (fun row acc => expectedRowTrace row ++ acc) []).filter isPrepareCall = [] := by
  induction rows with
  | nil => rfl
  | cons row rest ih =>
    simp [List.filter_append, filter_prepare_expectedRowTrace, ih]

theorem binder_bind_ok (se : StmtEngine) (P : Nat) (hP : se.parameterCount = Int.ofNat P)
    (hbind : ∀ c, se.bindResult c = SQLITE_OK) (idx : Nat) (h1 : 1 ≤ idx) (h2 : idx ≤ P)
    (v : SqliteValue) :
    SqliteValueBinder.bind se (Int.ofNat idx) v = ([bindCallOf (Int.ofNat idx) v], none) := by
  have hck : checkParameterIndex se.parameterCount (Int.ofNat idx) = none := by
    rw [hP]
    exact checkParameterIndex_in_range _ _ (by simp [Int.ofNat_eq_coe]; exact_mod_cast h1)
      (by simp [Int.ofNat_eq_coe]; exact_mod_cast h2)
  rw [Int.ofNat_eq_coe] at hck
  cases v <;>
    simp [SqliteValueBinder.bind, SqliteStatement.bindNull, SqliteStatement.bindInt64,
      SqliteStatement.bindDouble, SqliteStatement.bindText, SqliteStatement.bindBlob,
      hck, hbind, bindCallOf]

theorem bindRow_ok (se : StmtEngine) (P : Nat) (hP : se.parameterCount = Int.ofNat P)
    (hbind : ∀ c, se.bindResult c = SQLITE_OK) (row : List SqliteValue) :
    ∀ idx : Nat, 1 ≤ idx → idx + row.length ≤ P + 1 →
      SqliteDb.bindRow se idx row = (rowBindCallsFrom idx row, none) := by
  induction row with
  | nil => intro idx _ _; rfl
  | cons v rest ih =>
    intro idx h1 h2
    have hlen : idx ≤ P := by
      simp [List.length_cons] at h2
      omega
    have hb := binder_bind_ok se P hP hbind idx h1 hlen v
    have hrest := ih (idx + 1) (by omega) (by simp [List.length_cons] at h2 ⊢; omega)
    simp only [SqliteDb.bindRow]
    rw [hb, hrest]
    simp [rowBindCallsFrom]

theorem step_ok (rc : Int) (h : rc = SQLITE_ROW ∨ rc = SQLITE_DONE) :
    ∃ b : Bool, SqliteStatement.step rc = Except.ok b := by
  unfold SqliteStatement.step
  rcases h with h | h
  · rw [if_pos h]
    exact ⟨true, rfl⟩
  · by_cases h1 : rc = SQLITE_ROW
    · rw [if_pos h1]
      exact ⟨true, rfl⟩
    · rw [if_neg h1, if_pos h]
      exact ⟨false, rfl⟩

theorem executeBatchRows_ok (se : StmtEngine) (P : Nat)
    (hP : se.parameterCount = Int.ofNat P) (hbind : ∀ c, se.bindResult c = SQLITE_OK)
    (hstep : ∀ k, se.stepResult k = SQLITE_ROW ∨ se.stepResult k = SQLITE_DONE)
    (rows : List (List SqliteValue)) :
    ∀ stepsDone : Nat, (∀ row ∈ rows, row.length ≤ P) →
      SqliteDb.executeBatchRows se stepsDone rows =
        (rows.foldr (fun row acc => expectedRowTrace row ++ acc) [], none) := by
  induction rows with
  | nil => intro s _; rfl
  | cons row rest ih =>
    intro s hlen
    have hbr := bindRow_ok se P hP hbind row 1 (le_refl 1)
      (by have := hlen row (by simp); omega)
    obtain ⟨b, hsb⟩ := step_ok (se.stepResult s) (hstep s)
    have hrest := ih (s + 1) (fun r hr => hlen r (by simp [hr]))
    simp only [SqliteDb.executeBatchRows]
    rw [hbr, hsb, hrest]
    simp [expectedRowTrace, List.append_assoc]

/-- C1: on an open connection, with a template that compiles and an engine
accepting every bind and step, executeBatch over rows whose lengths all equal
the placeholder count produces no error and issues exactly the protocol
trace: one prepare, then for each row in order its values bound at
consecutive 1-based slots starting at 1, one step, one reset and one
clearBindings; in particular the trace holds exactly N step calls for N rows
and exactly one prepare call. -/
theorem C1_executeBatch_protocol :
    ∀ (db : SqliteConnection) (se : StmtEngine) (sql : String)
      (rows : List (List SqliteValue)) (P : Nat),
      db.isOpen = true → db.prepareResult sql = SQLITE_OK →
      se.parameterCount = Int.ofNat P →
      (∀ c, se.bindResult c = SQLITE_OK) →
      (∀ k, se.stepResult k = SQLITE_ROW ∨ se.stepResult k = SQLITE_DONE) →
      (∀ row ∈ rows, row.length = P) →
      SqliteDb.executeBatch db se sql rows = (expectedBatchTrace sql rows, none) ∧
      (expectedBatchTrace sql rows).count EngineCall.step = rows.length ∧
      ((expectedBatchTrace sql rows).filter isPrepareCall).length = 1 := by
  intro db se sql rows P hopen hprep hP hbind hstep hlen
  refine ⟨?_, ?_, ?_⟩
  · unfold SqliteDb.executeBatch
    rw [if_neg (by simp [hopen])]
    unfold SqliteDb.prepare
    rw [if_neg (by simp [hopen]), if_pos hprep]
    rw [executeBatchRows_ok se P hP hbind hstep rows 0
      (fun row hr => le_of_eq (hlen row hr))]
    simp [expectedBatchTrace]
  · simp [expectedBatchTrace, List.count_cons, count_step_rowTraces]
  · simp [expectedBatchTrace, List.filter_cons, isPrepareCall, filter_prepare_rowTraces]

/-- Two rows of length 2 used for the batch witnesses. -/
def rowsW : List (List SqliteValue) :=
  [[SqliteValue.vInt64 1, SqliteValue.vText "a"],
   [SqliteValue.vNull, SqliteValue.vBlob []]]

theorem C1_executeBatch_protocol_witness :
    SqliteDb.executeBatch dbOpenOk seP2 "INSERT INTO t VALUES (?, ?)" rowsW =
      (expectedBatchTrace "INSERT INTO t VALUES (?, ?)" rowsW, none) ∧
    (expectedBatchTrace "INSERT INTO t VALUES (?, ?)" rowsW).count EngineCall.step = 2 :=
  ⟨(C1_executeBatch_protocol dbOpenOk seP2 "INSERT INTO t VALUES (?, ?)" rowsW 2
      rfl rfl rfl (fun c => rfl) (fun k => Or.inr rfl) (by decide)).1,
   (C1_executeBatch_protocol dbOpenOk seP2 "INSERT INTO t VALUES (?, ?)" rowsW 2
      rfl rfl rfl (fun c => rfl) (fun k => Or.inr rfl) (by decide)).2.1⟩

/-- C2 counterexample: a row SHORTER than the placeholder count is not
rejected: with a 2-placeholder template and the one-value row [7],
executeBatch raises no error and the row is stepped (one step call),
contradicting the claim that every row whose length differs from P fails at
the bind step before being stepped. -/
theorem C2_counterexample_short_row_not_rejected :
    (SqliteDb.executeBatch dbOpenOk seP2 "INSERT INTO t VALUES (?, ?)"
        [[SqliteValue.vInt64 7]]).2 = none ∧
    (SqliteDb.executeBatch dbOpenOk seP2 "INSERT INTO t VALUES (?, ?)"
        [[SqliteValue.vInt64 7]]).1.count EngineCall.step = 1 :=
  ⟨rfl, rfl⟩

theorem checkParameterIndex_out_exists (p i : Int) (h : i < 1 ∨ p < i) :
    ∃ e : SqliteError, checkParameterIndex p i = some e ∧
      e.category = ErrCategory.statement := by
  have hm := checkParameterIndex_out_of_range p i h
  rcases hh : checkParameterIndex p i with _ | e
  · rw [hh] at hm
    simp at hm
  · rw [hh] at hm
    simp at hm
    exact ⟨e, rfl, hm⟩

theorem binder_bind_err (se : StmtEngine) (i : Int) (e : SqliteError)
    (hck : checkParameterIndex se.parameterCount i = some e) (v : SqliteValue) :
    SqliteValueBinder.bind se i v = ([], some e) := by
  cases v <;>
    simp [SqliteValueBinder.bind, SqliteStatement.bindNull, SqliteStatement.bindInt64,
      SqliteStatement.bindDouble, SqliteStatement.bindText, SqliteStatement.bindBlob, hck]

theorem bindRow_overflow (se : StmtEngine) (P : Nat) (hP : se.parameterCount = Int.ofNat P)
    (hbind : ∀ c, se.bindResult c = SQLITE_OK) (row : List SqliteValue) :
    ∀ idx : Nat, 1 ≤ idx → idx ≤ P + 1 → P + 1 < idx + row.length →
      ∃ e : SqliteError,
        SqliteDb.bindRow se idx row =
          (rowBindCallsFrom idx (row.take (P + 1 - idx)), some e) ∧
        e.category = ErrCategory.statement := by
  induction row with
  | nil =>
    intro idx h1 h2 h3
    exfalso
    simp at h3
    omega
  | cons v rest ih =>
    intro idx h1 h2 h3
    by_cases hidx : idx = P + 1
    · obtain ⟨e, hck, hcat⟩ := checkParameterIndex_out_exists se.parameterCount (Int.ofNat idx)
        (by
          right
          rw [hP]
          subst hidx
          exact Int.ofNat_lt.mpr (Nat.lt_succ_self P))
      have hbv := binder_bind_err se (Int.ofNat idx) e hck v
      refine ⟨e, ?_, hcat⟩
      simp only [SqliteDb.bindRow]
      rw [hbv]
      have htake : P + 1 - idx = 0 := by omega
      rw [htake]
      simp [rowBindCallsFrom]
    · have hb := binder_bind_ok se P hP hbind idx h1 (by omega) v
      obtain ⟨e, hrec, hcat⟩ := ih (idx + 1) (by omega) (by omega)
        (by simp at h3 ⊢; omega)
      refine ⟨e, ?_, hcat⟩
      simp only [SqliteDb.bindRow]
      rw [hb, hrec]
      have htake : P + 1 - idx = (P + 1 - (idx + 1)) + 1 := by omega
      rw [htake]
      simp [rowBindCallsFrom]

theorem executeBatchRows_overflow (se : StmtEngine) (P : Nat)
    (hP : se.parameterCount = Int.ofNat P) (hbind : ∀ c, se.bindResult c = SQLITE_OK)
    (hstep : ∀ k, se.stepResult k = SQLITE_ROW ∨ se.stepResult k = SQLITE_DONE)
    (row : List SqliteValue) (hrow : P < row.length) :
    ∀ (pre rest : List (List SqliteValue)) (s : Nat), (∀ r ∈ pre, r.length ≤ P) →
      ∃ e : SqliteError,
        SqliteDb.executeBatchRows se s (pre ++ row :: rest) =
          (pre.foldr (fun r acc => expectedRowTrace r ++ acc) [] ++
            rowBindCallsFrom 1 (row.take P), some e) ∧
        e.category = ErrCategory.statement := by
  intro pre
  induction pre with
  | nil =>
    intro rest s _
    obtain ⟨e, hbr, hcat⟩ := bindRow_overflow se P hP hbind row 1 (le_refl 1)
      (by omega) (by omega)
    refine ⟨e, ?_, hcat⟩
    rw [List.nil_append]
    simp only [SqliteDb.executeBatchRows]
    rw [hbr]
    simp
  | cons r pre ih =>
    intro rest s hpre
    have hbr := bindRow_ok se P hP hbind r 1 (le_refl 1)
      (by have := hpre r (by simp); omega)
    obtain ⟨b, hsb⟩ := step_ok (se.stepResult s) (hstep s)
    obtain ⟨e, hrec, hcat⟩ := ih rest (s + 1) (fun x hx => hpre x (by simp [hx]))
    refine ⟨e, ?_, hcat⟩
    rw [List.cons_append]
    simp only [SqliteDb.executeBatchRows]
    rw [hbr, hsb, hrec]
    simp [expectedRowTrace, List.append_assoc]

/-- C2 amended: a row LONGER than the placeholder count P makes executeBatch
fail at that row's bind step (at the first out-of-range slot P+1) with a
statement-category error, before that row is stepped; rows after it are not
attempted and only the earlier rows were stepped (their effects are not
undone).  A row shorter than P, however, is not detected: it binds its
values and is stepped normally (see the counterexample). -/
theorem C2_overlong_row_fails_at_bind :
    ∀ (db : SqliteConnection) (se : StmtEngine) (sql : String)
      (pre : List (List SqliteValue)) (row : List SqliteValue)
      (rest : List (List SqliteValue)) (P : Nat),
      db.isOpen = true → db.prepareResult sql = SQLITE_OK →
      se.parameterCount = Int.ofNat P →
      (∀ c, se.bindResult c = SQLITE_OK) →
      (∀ k, se.stepResult k = SQLITE_ROW ∨ se.stepResult k = SQLITE_DONE) →
      (∀ r ∈ pre, r.length ≤ P) → P < row.length →
      (SqliteDb.executeBatch db se sql (pre ++ row :: rest)).1 =
        EngineCall.prepare sql ::
          (pre.foldr (fun r acc => expectedRowTrace r ++ acc) [] ++
            rowBindCallsFrom 1 (row.take P)) ∧
      (SqliteDb.executeBatch db se sql (pre ++ row :: rest)).2.map SqliteError.category =
        some ErrCategory.statement ∧
      (SqliteDb.executeBatch db se sql (pre ++ row :: rest)).1.count EngineCall.step =
        pre.length := by
  intro db se sql pre row rest P hopen hprep hP hbind hstep hpre hrow
  obtain ⟨e, hrows, hcat⟩ :=
    executeBatchRows_overflow se P hP hbind hstep row hrow pre rest 0 hpre
  have hbatch : SqliteDb.executeBatch db se sql (pre ++ row :: rest) =
      (EngineCall.prepare sql ::
        (pre.foldr (fun r acc => expectedRowTrace r ++ acc) [] ++
          rowBindCallsFrom 1 (row.take P)), some e) := by
    unfold SqliteDb.executeBatch
    rw [if_neg (by simp [hopen])]
    unfold SqliteDb.prepare
    rw [if_neg (by simp [hopen]), if_pos hprep]
    rw [hrows]
    simp
  refine ⟨by rw [hbatch], by rw [hbatch]; simp [hcat], ?_⟩
  rw [hbatch]
  simp [List.count_cons, List.count_append, count_step_rowTraces,
    count_step_rowBindCallsFrom]

/-- The batch used in the C2 witness: one well-sized row, then a row of
length 3 against a 2-placeholder template. -/
def rowsOverW : List (List SqliteValue) :=
  [[SqliteValue.vInt64 1, SqliteValue.vText "a"]] ++
    [SqliteValue.vNull, SqliteValue.vNull, SqliteValue.vNull] :: []

theorem C2_overlong_row_fails_at_bind_witness :
    (SqliteDb.executeBatch dbOpenOk seP2 "INSERT INTO t VALUES (?, ?)" rowsOverW).2.map
        SqliteError.category = some ErrCategory.statement ∧
    (SqliteDb.executeBatch dbOpenOk seP2 "INSERT INTO t VALUES (?, ?)" rowsOverW).1.count
        EngineCall.step = 1 :=
  ⟨(C2_overlong_row_fails_at_bind dbOpenOk seP2 "INSERT INTO t VALUES (?, ?)"
      [[SqliteValue.vInt64 1, SqliteValue.vText "a"]]
      [SqliteValue.vNull, SqliteValue.vNull, SqliteValue.vNull] [] 2
      rfl rfl rfl (fun c => rfl) (fun k => Or.inr rfl) (by decide) (by decide)).2.1,
   (C2_overlong_row_fails_at_bind dbOpenOk seP2 "INSERT INTO t VALUES (?, ?)"
      [[SqliteValue.vInt64 1, SqliteValue.vText "a"]]
      [SqliteValue.vNull, SqliteValue.vNull, SqliteValue.vNull] [] 2
      rfl rfl rfl (fun c => rfl) (fun k => Or.inr rfl) (by decide) (by decide)).2.2⟩
